import Mathlib

/-!
Verification development for the TCM diagnostic-report Streamlit app.

Shallow embedding of the report-assembly pipeline and persistence helpers:
* `App` models `src/app.py`: `query_weaviate`, `generate_diagnostic_report_part`,
  `generate_diagnostic_report`, `search_patient`, `save_or_update_patient`.
  External collaborators (Weaviate client, Groq client, Google Docs) are
  parameters; exceptions are modelled with `Except`, Python `None` with `Option`.
  The section loop additionally records a trace of observable events
  (retrieval calls, generation calls with their exact prompts, warnings),
  mirroring the order in which the source performs them.
* `Pages` models `generate_diagnostic_report` of `src/pages/2_Generate_Report.py`.
* `PatientInformation` models `calculate_progress` and the gated
  "Generate Report" handler of `src/pages/patient_information.py`.
* `Paged` models the section-completion flags and displayed progress of
  `src/pages/1_Patient_Information.py`.
-/

/-- Python runtime values appearing in the session-state dictionaries,
with Python truthiness. -/
inductive PyValue where
  | str (s : String)
  | int (n : Int)
  | list (l : List String)
  | none
deriving DecidableEq

/-- Python truthiness of a value (`if value:`): nonempty string, nonzero
integer, nonempty list; `None` is falsy. -/
def PyValue.truthy : PyValue → Bool
  | .str s => !s.isEmpty
  | .int n => n != 0
  | .list l => !l.isEmpty
  | .none => false

namespace App

/-- One retrieved passage (`{"text": ...}` object of the Weaviate response). -/
structure Passage where
  text : String
deriving DecidableEq

/-- Observable events of one run of `generate_diagnostic_report`
(`src/app.py` lines 339-360), in the order the source performs them. -/
inductive Event where
  /-- `query_weaviate(user_message)` was invoked with this query text. -/
  | retrieve (query : String)
  /-- `st.error("Unexpected response format: ...")` inside `query_weaviate`. -/
  | formatError
  /-- the Groq completion was invoked for `section` with this system prompt
  and this user prompt. -/
  | generateCall (sect systemPrompt userPrompt : String)
  /-- `st.warning(msg)` for a failed section. -/
  | warning (msg : String)
deriving DecidableEq

/-- A python-docx `Document` body: the ordered headings and paragraphs. -/
inductive Block where
  | heading (level : Nat) (text : String)
  | paragraph (text : String)
deriving DecidableEq

abbrev Doc := List Block

/-- The two external collaborators of the report pipeline.
`clientQuery q k` models `weaviate_client.query...with_limit(k).do()` plus the
response-shape check: `Except.error` is a raised exception, `Except.ok none`
a response missing `data/Get/TCMApp`, `Except.ok (some ps)` a well-formed
response.  `complete sys user` models
`groq_client.chat.completions.create(...)`: `Except.error` is a raised
exception, `Except.ok s` the returned message content. -/
structure Env where
  clientQuery : String → Nat → Except String (Option (List Passage))
  complete : String → String → Except String String

/-- `query_weaviate` (`src/app.py` lines 282-293): an exception from the
client propagates; a well-formed response yields its passages; an
unexpected format shows `st.error` and returns `[]`. -/
def query_weaviate (env : Env) (query_text : String) (top_k : Nat) :
    Except String (List Passage × List Event) :=
  match env.clientQuery query_text top_k with
  | .error e => .error e
  | .ok (some passages) => .ok (passages, [])
  | .ok Option.none => .ok ([], [Event.formatError])

/-- The user prompt assembled in `generate_diagnostic_report_part`
(`src/app.py` line 301): `f"Context: {context}\n\nUser Query: {user_message}"`. -/
def partPrompt (context user_message : String) : String :=
  "Context: " ++ context ++ "\n\nUser Query: " ++ user_message

/-- `generate_diagnostic_report_part` (`src/app.py` lines 295-312): calls the
Groq client; on any exception shows `st.error` and returns `None`. -/
def generate_diagnostic_report_part (complete : String → String → Except String String)
    (system_message user_message context : String) : Option String :=
  match complete system_message (partPrompt context user_message) with
  | .ok content => some content
  | .error _ => Option.none

/-- The fixed section list of `generate_diagnostic_report`
(`src/app.py` lines 323-332). -/
def reportSections : List String :=
  ["1. Patient Overview",
   "2. TCM Diagnosis",
   "3. Pattern Differentiation",
   "4. Treatment Principle and Plan",
   "5. Acupuncture Point Prescription",
   "6. Herbal Formula Recommendation",
   "7. Lifestyle and Dietary Advice",
   "8. Prognosis and Follow-up Recommendations"]

/-- The per-section user message (`src/app.py` lines 340-344). -/
def sectionUserMessage (sect user_input : String) : String :=
  "\n        Based strictly on the following patient information and context, generate the "
    ++ sect
    ++ " of the TCM diagnostic report.\n        Only use information explicitly provided in the context or patient information. If there\x27s insufficient information for any part of this section, clearly state this limitation.\n        Patient Information: "
    ++ user_input ++ "\n        "

/-- The run-wide system message (`src/app.py` lines 319-321). -/
def systemMessage (patient_name patient_age : String) : String :=
  "You are a TCM practitioner tasked with generating a diagnostic report. Your knowledge is strictly limited to the information provided in the context. Do not use any external knowledge or make assumptions beyond what is explicitly stated in the context or patient information.\n\n    You are generating a report for "
    ++ patient_name ++ ", a " ++ patient_age
    ++ "-year-old patient. Ensure your report is based solely on the provided context and patient information. If you cannot find relevant information in the context to address a particular aspect of the report, state that there is insufficient information to make a determination on that point."

/-- The warning text of `src/app.py` line 355. -/
def failWarning (sect : String) : String :=
  "Failed to generate " ++ sect ++ ". Moving to the next section."

/-- One iteration of the section loop (`src/app.py` lines 339-358):
retrieve context for the section, join the passage texts with newlines,
call the generator, and either append `heading` + `paragraph` to the
document or record the warning.  The progress-bar update and
`time.sleep(1)` are UI side effects with no data flow and are not modelled. -/
def processSection (env : Env) (system_message user_input : String)
    (acc : Doc × List Event) (sect : String) : Except String (Doc × List Event) :=
  let user_message := sectionUserMessage sect user_input
  match query_weaviate env user_message 5 with
  | .error e => .error e
  | .ok (query_results, retEvents) =>
      let section_context := String.intercalate "\n" (query_results.map Passage.text)
      let events := acc.2 ++ [Event.retrieve user_message] ++ retEvents
        ++ [Event.generateCall sect system_message (partPrompt section_context user_message)]
      match generate_diagnostic_report_part env.complete system_message user_message section_context with
      | some content =>
          if content.isEmpty then
            .ok (acc.1, events ++ [Event.warning (failWarning sect)])
          else
            .ok (acc.1 ++ [Block.heading 1 sect, Block.paragraph content], events)
      | Option.none =>
          .ok (acc.1, events ++ [Event.warning (failWarning sect)])

/-- `generate_diagnostic_report` (`src/app.py` lines 314-360).  The source
parses `user_input` with `json.loads`; here `patient_info` is that parsed
record (an insertion-ordered string dictionary) passed alongside its
serialization `user_input`.  Returns the docx document body plus the event
trace, or propagates an uncaught exception. -/
def generate_diagnostic_report (env : Env) (patient_info : List (String × String))
    (user_input : String) : Except String (Doc × List Event) :=
  let patient_name := (patient_info.lookup "Patient Name").getD "Patient"
  let patient_age := (patient_info.lookup "Age").getD "Unknown age"
  let system_message := systemMessage patient_name patient_age
  reportSections.foldlM (processSection env system_message user_input)
    ([Block.heading 0 ("TCM Diagnostic Report for " ++ patient_name)], [])

/-- The system prompt `generate_diagnostic_report` builds for a given parsed
patient record. -/
def sysOf (patient_info : List (String × String)) : String :=
  systemMessage ((patient_info.lookup "Patient Name").getD "Patient")
    ((patient_info.lookup "Age").getD "Unknown age")

/-- `save_or_update_patient` (`src/app.py` lines 81-105).  `sheet` is the
spreadsheet as a list of rows; the `range="A:A"` read yields the
first column of each row (`row.take 1`, `[]` for an empty row).  A row whose first cell
equals `patient_data["Patient Name"]` (case-sensitive) is updated in place
(the update overwrites the first `values.length` cells of that row); with
no match the row is appended.  A missing `"Patient Name"` key raises
`KeyError`, caught by the handler: an error is shown and the sheet is
unchanged. -/
def save_or_update_patient (sheet : List (List String))
    (patient_data : List (String × String)) : List (List String) :=
  match patient_data.lookup "Patient Name" with
  | Option.none => sheet
  | some pname =>
    let names := sheet.map (fun row => row.take 1)
    let row_index := names.findIdx? (fun name =>
      match name with
      | [] => false
      | h :: _ => h == pname)
    let values := patient_data.map Prod.snd
    match row_index with
    | some i => sheet.set i (values ++ (sheet.getD i []).drop values.length)
    | Option.none => sheet ++ [values]

/-- Python dict assignment `d[k] = v` on an insertion-ordered dictionary:
an existing key keeps its position, a new key is appended. -/
def dictSetO (d : List (String × Option String)) (k : String) (v : Option String) :
    List (String × Option String) :=
  if d.any (fun p => p.1 == k) then
    d.map (fun p => if p.1 == k then (k, v) else p)
  else d ++ [(k, v)]

/-- Python `str.lower()`: per-character lowercasing (faithful on the ASCII
names this code compares). -/
def pyLower (s : String) : String := ⟨s.data.map Char.toLower⟩

/-- Row scan of `search_patient` (`src/app.py` lines 67-75): compares
`row[0].lower() == name.lower()`; an empty row makes `row[0]` raise, the
handler catches it and the function returns `None`.  On a match the row is
zipped with the headers; a truthy `Report ID` additionally fetches the
report text (`getReport`, which returns `Option.none` exactly when
`get_report_content` returns `None`) and stores it under
`"Report Content"`. -/
def searchRows (getReport : String → Option String) (headers : List String)
    (rows : List (List String)) (name : String) : Option (List (String × Option String)) :=
  match rows with
  | [] => Option.none
  | row :: rest =>
    match row with
    | [] => Option.none
    | h :: _ =>
      if pyLower h == pyLower name then
        let patient_data := (headers.zip row).map (fun kv => (kv.1, some kv.2))
        match patient_data.lookup "Report ID" with
        | some (some rid) =>
            if !rid.isEmpty then
              some (dictSetO patient_data "Report Content" (getReport rid))
            else some patient_data
        | _ => some patient_data
      else searchRows getReport headers rest name

/-- `search_patient` (`src/app.py` lines 57-78): the first row is the header
row; an empty sheet makes `values[0]` raise, caught to return `None`. -/
def search_patient (getReport : String → Option String) (sheet : List (List String))
    (name : String) : Option (List (String × Option String)) :=
  match sheet with
  | [] => Option.none
  | headers :: rows => searchRows getReport headers rows name

end App

namespace Pages

/-- The fixed section list of `src/pages/2_Generate_Report.py` lines 39-46. -/
def reportSections : List String :=
  ["1. Case Abstract",
   "2. Case Study",
   "3. TCM Diagnosis",
   "4. Diagnosis and Treatment Plan",
   "5. TCM Pattern Differentiation Diagram",
   "6. References"]

/-- The system message of `src/pages/2_Generate_Report.py` line 37. -/
def systemMessage : String :=
  "You are a world-renowned Traditional Chinese Medicine practitioner with decades of experience and deep knowledge of both traditional and modern TCM practices. Your diagnostic reports are known for their exceptional detail, insight, and thoroughness."

/-- The per-section user message of `src/pages/2_Generate_Report.py`
lines 52-62. -/
def sectionUserMessage (sect context user_input : String) : String :=
  "\n        Based on the following patient information and context, generate a comprehensive and detailed TCM diagnostic report section for: "
    ++ sect
    ++ "\n\n        Ensure your response is extremely thorough and professional, demonstrating deep understanding of TCM principles and providing well-reasoned insights.\n\n        Context: "
    ++ context ++ "\n\n        Patient Input: " ++ user_input
    ++ "\n\n        Generate the " ++ sect
    ++ " of the TCM Diagnostic Report:\n        "

/-- `generate_diagnostic_report_part` of `src/pages/2_Generate_Report.py`
lines 16-33: exceptions from the client become `None`. -/
def generate_diagnostic_report_part (complete : String → String → Except String String)
    (system_message user_message : String) : Option String :=
  match complete system_message user_message with
  | .ok content => some content
  | .error _ => Option.none

/-- The warning text of `src/pages/2_Generate_Report.py` line 69. -/
def failWarning (sect : String) : String :=
  "Failed to generate " ++ sect ++ ". Moving to the next section."

/-- `generate_diagnostic_report` of `src/pages/2_Generate_Report.py`
lines 36-74: a plain-text accumulator; a truthy section result is appended
as `"\n\n" + section + "\n" + content`, a falsy one records the warning.
Returns the report text together with the warnings shown. -/
def generate_diagnostic_report (complete : String → String → Except String String)
    (context user_input : String) : String × List String :=
  reportSections.foldl (fun acc sect =>
    let user_message := sectionUserMessage sect context user_input
    match generate_diagnostic_report_part complete systemMessage user_message with
    | some content =>
        if content.isEmpty then (acc.1, acc.2 ++ [failWarning sect])
        else (acc.1 ++ "\n\n" ++ sect ++ "\n" ++ content, acc.2)
    | Option.none => (acc.1, acc.2 ++ [failWarning sect]))
    ("", [])

end Pages

namespace PatientInformation

/-- `required_fields` of `calculate_progress`
(`src/pages/patient_information.py` lines 18-20). -/
def required_fields : List String :=
  ["name", "dob", "gender", "occupation", "chief_complaint", "complaint_background",
   "medical_history", "lifestyle", "current_medications", "tongue_color", "tongue_coating",
   "tongue_moisture", "pulse_rate", "additional_symptoms"]

/-- `question_fields` (`src/pages/patient_information.py` line 21). -/
def question_fields : List String :=
  (List.range 10).map (fun i => "question_" ++ toString i ++ "_answer")

/-- `all_fields` (`src/pages/patient_information.py` line 22). -/
def all_fields : List String := required_fields ++ question_fields

/-- `st.session_state.patient_info.get(field)` is truthy. -/
def fieldFilled (patient_info : List (String × PyValue)) (f : String) : Bool :=
  match patient_info.lookup f with
  | some v => v.truthy
  | Option.none => false

/-- `filled_fields` (`src/pages/patient_information.py` line 24). -/
def filled_fields (patient_info : List (String × PyValue)) : Nat :=
  (all_fields.filter (fieldFilled patient_info)).length

/-- `calculate_progress` (`src/pages/patient_information.py` lines 17-25):
`filled_fields / len(all_fields)` (exact rational value of the Python
float division, which is exact at and around the 0.5 boundary). -/
def calculate_progress (patient_info : List (String × PyValue)) : ℚ :=
  (filled_fields patient_info : ℚ) / (all_fields.length : ℚ)

/-- Outcome of pressing the gated "Generate Report" button. -/
inductive GateAction where
  /-- sets `generate_report = True` and navigates to the View Report page. -/
  | proceed
  /-- `st.warning(msg)`; nothing else happens. -/
  | rejected (msg : String)
deriving DecidableEq

/-- The warning of `src/pages/patient_information.py` line 154. -/
def gateWarning : String :=
  "Please fill in more patient information before generating a report."

/-- The warning of `src/pages/patient_information.py` line 145. -/
def firstButtonWarning : String :=
  "Please fill in patient information before generating a report."

/-- The page renders two "Generate Report" buttons.  This is the FIRST
handler (`src/pages/patient_information.py` lines 139-145): it proceeds
whenever the `patient_info` dictionary is truthy (non-empty) — there is
no completion-fraction check at all.  (After the `update()` at line 118
the dictionary is always non-empty, so this handler always proceeds.)
It precedes the gated handler below; the two
`st.button("Generate Report")` calls also share one auto-generated
widget key, so at render time the second call raises the Streamlit
duplicate-widget error. -/
def first_generate_report_click (patient_info : List (String × PyValue)) : GateAction :=
  if !patient_info.isEmpty then GateAction.proceed
  else GateAction.rejected firstButtonWarning

/-- The SECOND, fraction-gated "Generate Report" handler
(`src/pages/patient_information.py` lines 148-154, commented
`# Require at least 50% completion`): the branch is pure — it calls no
retrieval or generation collaborator (neither does anything else on this
page; generation happens on a different page after navigation). -/
def generateReportClick (patient_info : List (String × PyValue)) : GateAction :=
  if calculate_progress patient_info > 1 / 2 then GateAction.proceed
  else GateAction.rejected gateWarning

end PatientInformation

namespace Paged

/-- The form sections of `src/pages/1_Patient_Information.py` line 8. -/
def sections : List String :=
  ["Basic Information", "Presenting Complaint", "Medical History & Lifestyle",
   "10 Questions for Internal Diseases", "Tongue Diagnosis", "Pulse Diagnosis",
   "Additional Symptoms"]

/-- The ten questions (`src/pages/1_Patient_Information.py` lines 101-112). -/
def questions : List String :=
  ["Chills and/or fever",
   "Sweating and/or hot flushes",
   "Headaches (type, frequency, location) or dizziness",
   "Chest and/or digestion problems",
   "Food & appetite issues",
   "Stool & urination problems",
   "Sleep issues",
   "Deafness or tinnitus",
   "Thirst & drink preferences",
   "Pain (type, quality & location)"]

/-- The widget values of one render.  `age` is the value stored by
`auto_save_basic` (the age computed from a valid date of birth, or `None`);
`answers q` and `details q` are the per-question widgets. -/
structure FormInputs where
  name : String
  dob_str : String
  age : PyValue
  gender : String
  occupation : String
  chief_complaint : String
  complaint_background : String
  medical_history : String
  lifestyle : String
  current_medications : String
  answers : String → String
  details : String → String
  tongue_color : String
  tongue_coating : String
  tongue_shape : List String
  tongue_moisture : String
  pulse_rate : Int
  pulse_quality : List String
  additional_symptoms : String

/-- The slice of `st.session_state` the page touches: the
`f"{section}_complete"` flags viewed through
`st.session_state.get(key, False)` (a total map defaulting to `False`),
and the `patient_info` dictionary. -/
structure Session where
  flags : String → Bool
  patient_info : List (String × PyValue)

/-- Python dict assignment on the insertion-ordered `patient_info`. -/
def dictSetP (d : List (String × PyValue)) (k : String) (v : PyValue) :
    List (String × PyValue) :=
  if d.any (fun p => p.1 == k) then
    d.map (fun p => if p.1 == k then (k, v) else p)
  else d ++ [(k, v)]

/-- `dict.update` with several keys. -/
def dictUpdateP (d : List (String × PyValue)) (kvs : List (String × PyValue)) :
    List (String × PyValue) :=
  kvs.foldl (fun d kv => dictSetP d kv.1 kv.2) d

/-- `st.session_state[key] = True`. -/
def markComplete (f : String → Bool) (k : String) : String → Bool :=
  fun q => if q == k then true else f q

/-- The progress computed and displayed at the top of the render
(`src/pages/1_Patient_Information.py` lines 10-16):
`completed_sections / len(sections)` over the incoming session state. -/
def displayedProgress (s : Session) : ℚ :=
  ((sections.countP (fun sec => s.flags (sec ++ "_complete"))) : ℚ) /
    (sections.length : ℚ)

/-- `auto_save_questions` (`src/pages/1_Patient_Information.py`
lines 124-128): stores every answer, and details only for "Yes" answers. -/
def saveQuestions (inp : FormInputs) (pi : List (String × PyValue)) :
    List (String × PyValue) :=
  questions.foldl (fun pi q =>
    let pi := dictSetP pi (q ++ "_answer") (PyValue.str (inp.answers q))
    if inp.answers q == "Yes" then
      dictSetP pi (q ++ "_details") (PyValue.str (inp.details q))
    else pi) pi

/-- One render of `patient_info_page` (`src/pages/1_Patient_Information.py`):
the displayed progress is computed from the incoming flags; then each form
section runs its `auto_save_*` update and unconditionally sets its
`f"{section}_complete"` flag to `True` (lines 65, 80, 97, 131, 150, 165,
176).  Returns the displayed progress and the post-render session state.
Widget rendering, date validation and the save button are UI effects
without further data flow. -/
def patient_info_page (inp : FormInputs) (s : Session) : ℚ × Session :=
  let progress := displayedProgress s
  let f0 := s.flags
  let pi0 := s.patient_info
  let pi1 := dictUpdateP pi0 [("name", PyValue.str inp.name), ("dob", PyValue.str inp.dob_str),
    ("age", inp.age), ("gender", PyValue.str inp.gender),
    ("occupation", PyValue.str inp.occupation)]
  let f1 := markComplete f0 "Basic Information_complete"
  let pi2 := dictUpdateP pi1 [("chief_complaint", PyValue.str inp.chief_complaint),
    ("complaint_background", PyValue.str inp.complaint_background)]
  let f2 := markComplete f1 "Presenting Complaint_complete"
  let pi3 := dictUpdateP pi2 [("medical_history", PyValue.str inp.medical_history),
    ("lifestyle", PyValue.str inp.lifestyle),
    ("current_medications", PyValue.str inp.current_medications)]
  let f3 := markComplete f2 "Medical History & Lifestyle_complete"
  let pi4 := saveQuestions inp pi3
  let f4 := markComplete f3 "10 Questions for Internal Diseases_complete"
  let pi5 := dictUpdateP pi4 [("tongue_color", PyValue.str inp.tongue_color),
    ("tongue_coating", PyValue.str inp.tongue_coating),
    ("tongue_shape", PyValue.list inp.tongue_shape),
    ("tongue_moisture", PyValue.str inp.tongue_moisture)]
  let f5 := markComplete f4 "Tongue Diagnosis_complete"
  let pi6 := dictUpdateP pi5 [("pulse_rate", PyValue.int inp.pulse_rate),
    ("pulse_quality", PyValue.list inp.pulse_quality)]
  let f6 := markComplete f5 "Pulse Diagnosis_complete"
  let pi7 := dictSetP pi6 "additional_symptoms" (PyValue.str inp.additional_symptoms)
  let f7 := markComplete f6 "Additional Symptoms_complete"
  (progress, { flags := f7, patient_info := pi7 })

end Paged

namespace App

/-! Derived descriptions of one run of the section loop, used to state the
contract of the loop.  They are parameterized by the generation collaborator
`complete`, the run-wide prompts `sys`/`ui`, and the retrieval outcome
`resp q` (`some ps` = well-formed response with passages `ps`, `none` =
unexpected response format; a raised retrieval exception is covered
separately since it aborts the run). -/

/-- The flat context string the loop builds for section `s`: the returned
passages joined with newlines (empty on a malformed response). -/
def respCtx (resp : String → Option (List Passage)) (ui s : String) : String :=
  String.intercalate "\n" (((resp (sectionUserMessage s ui)).getD []).map Passage.text)

/-- The retrieval-side events of section `s`. -/
def respRetEvents (resp : String → Option (List Passage)) (ui s : String) : List Event :=
  match resp (sectionUserMessage s ui) with
  | some _ => []
  | Option.none => [Event.formatError]

/-- What `generate_diagnostic_report_part` returns for section `s`. -/
def sectionOutcome (complete : String → String → Except String String)
    (sys ui : String) (resp : String → Option (List Passage)) (s : String) : Option String :=
  generate_diagnostic_report_part complete sys (sectionUserMessage s ui) (respCtx resp ui s)

/-- Whether section `s` counts as succeeded (`if section_content:` truthy). -/
def sectionOk (complete : String → String → Except String String)
    (sys ui : String) (resp : String → Option (List Passage)) (s : String) : Bool :=
  match sectionOutcome complete sys ui resp s with
  | some c => !c.isEmpty
  | Option.none => false

/-- The generated text of a succeeded section. -/
def okContent (complete : String → String → Except String String)
    (sys ui : String) (resp : String → Option (List Passage)) (s : String) : String :=
  (sectionOutcome complete sys ui resp s).getD ""

/-- The blocks section `s` contributes to the document. -/
def blockDelta (complete : String → String → Except String String)
    (sys ui : String) (resp : String → Option (List Passage)) (s : String) : Doc :=
  match sectionOutcome complete sys ui resp s with
  | some c => if c.isEmpty then [] else [Block.heading 1 s, Block.paragraph c]
  | Option.none => []

/-- The events section `s` contributes to the trace. -/
def eventDelta (complete : String → String → Except String String)
    (sys ui : String) (resp : String → Option (List Passage)) (s : String) : List Event :=
  [Event.retrieve (sectionUserMessage s ui)] ++ respRetEvents resp ui s
    ++ [Event.generateCall s sys (partPrompt (respCtx resp ui s) (sectionUserMessage s ui))]
    ++ (match sectionOutcome complete sys ui resp s with
        | some c => if c.isEmpty then [Event.warning (failWarning s)] else []
        | Option.none => [Event.warning (failWarning s)])

/-- The full document body produced by a list of sections. -/
def expectedDoc (complete : String → String → Except String String)
    (sys ui : String) (resp : String → Option (List Passage)) : List String → Doc
  | [] => []
  | s :: rest => blockDelta complete sys ui resp s ++ expectedDoc complete sys ui resp rest

/-- The full event trace produced by a list of sections. -/
def expectedEvents (complete : String → String → Except String String)
    (sys ui : String) (resp : String → Option (List Passage)) : List String → List Event
  | [] => []
  | s :: rest => eventDelta complete sys ui resp s ++ expectedEvents complete sys ui resp rest

/-- The name carried by a level-1 (section) heading. -/
def heading1Name : Block → Option String
  | .heading 1 s => some s
  | _ => Option.none

/-- The message carried by a warning event. -/
def warningMsg : Event → Option String
  | .warning m => some m
  | _ => Option.none

/-! Concrete collaborator stubs and records used to exercise the theorems. -/

/-- A fixed retrieved passage. -/
def passageA : Passage := ⟨"passage A"⟩

/-- A parsed patient record. -/
def pi0 : List (String × String) := [("Patient Name", "Jane Doe"), ("Age", "30")]

/-- Retrieval behaviour: every query returns one well-formed passage. -/
def respA : String → Option (List Passage) := fun _ => some [passageA]

/-- Retrieval behaviour: every query returns a well-formed empty result. -/
def respEmpty : String → Option (List Passage) := fun _ => some []

/-- The exact generation prompt of the "2. TCM Diagnosis" section when the
context is the single passage `passage A` and the serialized intake is
empty. -/
def failingPrompt : String :=
  partPrompt (String.intercalate "\n" [passageA.text]) (sectionUserMessage "2. TCM Diagnosis" "")

/-- Retrieval always succeeds; generation raises exactly for the
prompt of the "2. TCM Diagnosis" section and succeeds for every other one. -/
def envC1 : Env :=
  { clientQuery := fun _ _ => .ok (some [passageA]),
    complete := fun _ u => if u == failingPrompt then .error "boom" else .ok "OK" }

/-- Retrieval and generation both always succeed. -/
def envAllOk : Env :=
  { clientQuery := fun _ _ => .ok (some [passageA]),
    complete := fun _ _ => .ok "OK" }

/-- The Weaviate client raises on every query. -/
def envRaise : Env :=
  { clientQuery := fun _ _ => .error "ConnectionError",
    complete := fun _ _ => .ok "OK" }

/-- The Weaviate client answers every query with an unexpectedly shaped
response. -/
def envMalformed : Env :=
  { clientQuery := fun _ _ => .ok Option.none,
    complete := fun _ _ => .ok "OK" }

/-- Retrieval succeeds (with no passages); generation raises every time. -/
def envTotalFailure : Env :=
  { clientQuery := fun _ _ => .ok (some []),
    complete := fun _ _ => .error "rate limited" }

/-- A spreadsheet holding only the header row. -/
def sheet0 : List (List String) := [["Patient Name", "Age"]]

/-- A spreadsheet with a header row and one stored patient. -/
def sheet9 : List (List String) := [["Patient Name", "Age"], ["Jane Doe", "30"]]

end App

namespace PatientInformation

/-- An intake record with exactly 12 of the 24 gate fields populated. -/
def pi12 : List (String × PyValue) :=
  [("name", PyValue.str "Jane Doe"), ("dob", PyValue.str "01/01/1990"),
   ("gender", PyValue.str "Female"), ("occupation", PyValue.str "Teacher"),
   ("chief_complaint", PyValue.str "Headache"), ("complaint_background", PyValue.str "Two weeks"),
   ("medical_history", PyValue.str "None notable"), ("lifestyle", PyValue.str "Active"),
   ("current_medications", PyValue.str "None"), ("tongue_color", PyValue.str "Pale"),
   ("tongue_coating", PyValue.str "Thin"), ("tongue_moisture", PyValue.str "Normal")]

/-- An intake record with exactly 13 of the 24 gate fields populated. -/
def pi13 : List (String × PyValue) :=
  pi12 ++ [("pulse_rate", PyValue.int 70)]

end PatientInformation

namespace App

theorem processSection_eq (env : Env) (sys ui : String)
    (resp : String → Option (List Passage))
    (hresp : ∀ q, env.clientQuery q 5 = Except.ok (resp q))
    (acc : Doc × List Event) (s : String) :
    processSection env sys ui acc s =
      Except.ok (acc.1 ++ blockDelta env.complete sys ui resp s,
                 acc.2 ++ eventDelta env.complete sys ui resp s) := by
  have hq : query_weaviate env (sectionUserMessage s ui) 5 =
      Except.ok ((resp (sectionUserMessage s ui)).getD [], respRetEvents resp ui s) := by
    unfold query_weaviate respRetEvents
    rw [hresp]
    cases resp (sectionUserMessage s ui) <;> rfl
  rcases hcall : env.complete sys (partPrompt (respCtx resp ui s) (sectionUserMessage s ui))
      with e | c
  all_goals simp only [respCtx] at hcall
  · simp [processSection, hq, blockDelta, eventDelta, sectionOutcome,
      generate_diagnostic_report_part, respCtx, hcall]
  · by_cases hc : c.isEmpty <;>
      simp [processSection, hq, blockDelta, eventDelta, sectionOutcome,
        generate_diagnostic_report_part, respCtx, hcall, hc]

theorem foldlM_processSection_eq (env : Env) (sys ui : String)
    (resp : String → Option (List Passage))
    (hresp : ∀ q, env.clientQuery q 5 = Except.ok (resp q)) :
    ∀ (sections : List String) (acc : Doc × List Event),
      sections.foldlM (processSection env sys ui) acc =
        Except.ok (acc.1 ++ expectedDoc env.complete sys ui resp sections,
                   acc.2 ++ expectedEvents env.complete sys ui resp sections) := by
  intro sections
  induction sections with
  | nil => intro acc; simp [expectedDoc, expectedEvents, List.foldlM_nil]; rfl
  | cons s rest ih =>
    intro acc
    rw [List.foldlM_cons, processSection_eq env sys ui resp hresp acc s]
    show rest.foldlM (processSection env sys ui) _ = _
    rw [ih]
    simp [expectedDoc, expectedEvents, List.append_assoc]

theorem generate_diagnostic_report_eq (env : Env) (pi : List (String × String)) (ui : String)
    (resp : String → Option (List Passage))
    (hresp : ∀ q, env.clientQuery q 5 = Except.ok (resp q)) :
    generate_diagnostic_report env pi ui =
      Except.ok
        (Block.heading 0
            ("TCM Diagnostic Report for " ++ ((pi.lookup "Patient Name").getD "Patient"))
          :: expectedDoc env.complete (sysOf pi) ui resp reportSections,
         expectedEvents env.complete (sysOf pi) ui resp reportSections) := by
  show reportSections.foldlM (processSection env (sysOf pi) ui)
      ([Block.heading 0
          ("TCM Diagnostic Report for " ++ ((pi.lookup "Patient Name").getD "Patient"))], [])
    = _
  rw [foldlM_processSection_eq env (sysOf pi) ui resp hresp reportSections]
  simp

theorem expectedDoc_headings (complete : String → String → Except String String)
    (sys ui : String) (resp : String → Option (List Passage)) :
    ∀ sections : List String,
      (expectedDoc complete sys ui resp sections).filterMap heading1Name =
        sections.filter (sectionOk complete sys ui resp) := by
  intro sections
  induction sections with
  | nil => rfl
  | cons s rest ih =>
    rw [expectedDoc, List.filterMap_append, ih, List.filter_cons]
    rcases ho : sectionOutcome complete sys ui resp s with _ | c
    · simp [blockDelta, sectionOk, ho, heading1Name]
    · by_cases hc : c.isEmpty <;> simp [blockDelta, sectionOk, ho, hc, heading1Name]

theorem expectedEvents_warnings (complete : String → String → Except String String)
    (sys ui : String) (resp : String → Option (List Passage)) :
    ∀ sections : List String,
      (expectedEvents complete sys ui resp sections).filterMap warningMsg =
        (sections.filter (fun s => !(sectionOk complete sys ui resp s))).map failWarning := by
  intro sections
  induction sections with
  | nil => rfl
  | cons s rest ih =>
    rw [expectedEvents, List.filterMap_append, ih, List.filter_cons]
    have hre : (respRetEvents resp ui s).filterMap warningMsg = [] := by
      rcases hr : resp (sectionUserMessage s ui) with _ | ps <;>
        simp [respRetEvents, hr, warningMsg]
    rcases ho : sectionOutcome complete sys ui resp s with _ | c
    · simp [eventDelta, sectionOk, ho, warningMsg, List.filterMap_append, hre]
    · by_cases hc : c.isEmpty <;>
        simp [eventDelta, sectionOk, ho, hc, warningMsg, List.filterMap_append, hre]

theorem heading_mem_expectedDoc (complete : String → String → Except String String)
    (sys ui : String) (resp : String → Option (List Passage)) (t : String) :
    ∀ sections : List String,
      Block.heading 1 t ∈ expectedDoc complete sys ui resp sections ↔
        t ∈ sections ∧ sectionOk complete sys ui resp t = true := by
  intro sections
  induction sections with
  | nil => simp [expectedDoc]
  | cons s rest ih =>
    rw [expectedDoc, List.mem_append, ih]
    have hd : Block.heading 1 t ∈ blockDelta complete sys ui resp s ↔
        (t = s ∧ sectionOk complete sys ui resp s = true) := by
      rcases ho : sectionOutcome complete sys ui resp s with _ | c
      · simp [blockDelta, ho, sectionOk]
      · by_cases hc : c.isEmpty <;> simp [blockDelta, ho, hc, sectionOk, eq_comm]
    rw [hd]
    constructor
    · rintro (⟨rfl, hok⟩ | ⟨hmem, hok⟩)
      · exact ⟨List.mem_cons_self .., hok⟩
      · exact ⟨List.mem_cons_of_mem _ hmem, hok⟩
    · rintro ⟨hmem, hok⟩
      rcases List.mem_cons.mp hmem with rfl | hmem
      · exact Or.inl ⟨rfl, hok⟩
      · exact Or.inr ⟨hmem, hok⟩

theorem content_mem_expectedDoc (complete : String → String → Except String String)
    (sys ui : String) (resp : String → Option (List Passage)) :
    ∀ sections : List String, ∀ s ∈ sections, sectionOk complete sys ui resp s = true →
      Block.heading 1 s ∈ expectedDoc complete sys ui resp sections ∧
        Block.paragraph (okContent complete sys ui resp s) ∈
          expectedDoc complete sys ui resp sections := by
  intro sections
  induction sections with
  | nil => intro s h; cases h
  | cons a rest ih =>
    intro s hs hok
    rw [expectedDoc]
    rcases List.mem_cons.mp hs with rfl | hs
    · constructor <;> apply List.mem_append_left
      · rcases ho : sectionOutcome complete sys ui resp s with _ | c
        · simp [sectionOk, ho] at hok
        · have hc : c.isEmpty = false := by
            rcases hic : c.isEmpty with _ | _
            · rfl
            · simp [sectionOk, ho, hic] at hok
          simp [blockDelta, ho, hc]
      · rcases ho : sectionOutcome complete sys ui resp s with _ | c
        · simp [sectionOk, ho] at hok
        · have hc : c.isEmpty = false := by
            rcases hic : c.isEmpty with _ | _
            · rfl
            · simp [sectionOk, ho, hic] at hok
          simp [blockDelta, okContent, ho, hc]
    · exact ⟨List.mem_append_right _ (ih s hs hok).1, List.mem_append_right _ (ih s hs hok).2⟩

theorem warning_mem_expectedEvents (complete : String → String → Except String String)
    (sys ui : String) (resp : String → Option (List Passage)) :
    ∀ sections : List String, ∀ s ∈ sections, sectionOk complete sys ui resp s = false →
      Event.warning (failWarning s) ∈ expectedEvents complete sys ui resp sections := by
  intro sections
  induction sections with
  | nil => intro s h; cases h
  | cons a rest ih =>
    intro s hs hfail
    rw [expectedEvents]
    rcases List.mem_cons.mp hs with rfl | hs
    · apply List.mem_append_left
      rcases ho : sectionOutcome complete sys ui resp s with _ | c
      · simp [eventDelta, ho]
      · have hc : c.isEmpty = true := by
          rcases hic : c.isEmpty with _ | _
          · simp [sectionOk, ho, hic] at hfail
          · rfl
        simp [eventDelta, ho, hc]
    · exact List.mem_append_right _ (ih s hs hfail)

theorem generateCall_mem_expectedEvents (complete : String → String → Except String String)
    (sys ui : String) (resp : String → Option (List Passage)) :
    ∀ sections : List String, ∀ s ∈ sections,
      Event.generateCall s sys
          (partPrompt (respCtx resp ui s) (sectionUserMessage s ui)) ∈
        expectedEvents complete sys ui resp sections := by
  intro sections
  induction sections with
  | nil => intro s h; cases h
  | cons a rest ih =>
    intro s hs
    rw [expectedEvents]
    rcases List.mem_cons.mp hs with rfl | hs
    · apply List.mem_append_left
      simp [eventDelta]
    · exact List.mem_append_right _ (ih s hs)

theorem retrieve_before_generate (complete : String → String → Except String String)
    (sys ui : String) (resp : String → Option (List Passage)) :
    ∀ sections : List String, ∀ s ∈ sections,
      List.Sublist
        [Event.retrieve (sectionUserMessage s ui),
         Event.generateCall s sys (partPrompt (respCtx resp ui s) (sectionUserMessage s ui))]
        (expectedEvents complete sys ui resp sections) := by
  intro sections
  induction sections with
  | nil => intro s h; cases h
  | cons a rest ih =>
    intro s hs
    rw [expectedEvents]
    rcases List.mem_cons.mp hs with rfl | hs
    · apply List.Sublist.trans ?_ (List.sublist_append_left _ _)
      rw [eventDelta]
      simp only [List.append_assoc, List.cons_append, List.nil_append]
      apply List.Sublist.cons₂
      exact List.Sublist.trans (List.sublist_append_left _ _) (List.sublist_append_right _ _)
    · exact (ih s hs).trans (List.sublist_append_right _ _)

theorem expectedDoc_nil_of_all_fail (complete : String → String → Except String String)
    (sys ui : String) (resp : String → Option (List Passage))
    (hfail : ∀ s, sectionOutcome complete sys ui resp s = Option.none) :
    ∀ sections : List String, expectedDoc complete sys ui resp sections = [] := by
  intro sections
  induction sections with
  | nil => rfl
  | cons s rest ih => rw [expectedDoc, ih, blockDelta, hfail]; rfl

theorem formatError_mem_expectedEvents (complete : String → String → Except String String)
    (sys ui : String) :
    ∀ sections : List String, sections ≠ [] →
      Event.formatError ∈
        expectedEvents complete sys ui (fun _ => Option.none) sections := by
  intro sections h
  cases sections with
  | nil => exact absurd rfl h
  | cons s rest =>
    rw [expectedEvents]
    apply List.mem_append_left
    simp [eventDelta, respRetEvents]

/-- C1: when the generation collaborator fails (raises, or returns content
that is empty/None) for at least one section of a run but succeeds for
another, `generate_diagnostic_report` still returns normally; every failed
section gets a warning naming it and contributes no heading to the
document; a generation call is still issued for every section of the list
(no failure of one section aborts the run); and the heading and content
of every succeeded section appear in the returned document. -/
theorem c1_section_failure_is_nonfatal (env : Env) (pi : List (String × String)) (ui : String)
    (resp : String → Option (List Passage))
    (hresp : ∀ q, env.clientQuery q 5 = Except.ok (resp q))
    (sFail sOk : String) (hmemF : sFail ∈ reportSections) (hmemO : sOk ∈ reportSections)
    (hfail : sectionOk env.complete (sysOf pi) ui resp sFail = false)
    (hok : sectionOk env.complete (sysOf pi) ui resp sOk = true) :
    ∃ doc ev, generate_diagnostic_report env pi ui = Except.ok (doc, ev)
      ∧ (∀ s ∈ reportSections, sectionOk env.complete (sysOf pi) ui resp s = false →
          Event.warning (failWarning s) ∈ ev ∧ Block.heading 1 s ∉ doc)
      ∧ (∀ s ∈ reportSections,
          Event.generateCall s (sysOf pi)
            (partPrompt (respCtx resp ui s) (sectionUserMessage s ui)) ∈ ev)
      ∧ (∀ s ∈ reportSections, sectionOk env.complete (sysOf pi) ui resp s = true →
          Block.heading 1 s ∈ doc ∧
            Block.paragraph (okContent env.complete (sysOf pi) ui resp s) ∈ doc) := by
  refine ⟨_, _, generate_diagnostic_report_eq env pi ui resp hresp, ?_, ?_, ?_⟩
  · intro s hs hf
    refine ⟨warning_mem_expectedEvents _ _ _ _ reportSections s hs hf, ?_⟩
    intro hmem
    rcases List.mem_cons.mp hmem with heq | hmem
    · simp at heq
    · have := (heading_mem_expectedDoc env.complete (sysOf pi) ui resp s reportSections).mp hmem
      rw [this.2] at hf
      cases hf
  · intro s hs
    exact generateCall_mem_expectedEvents env.complete (sysOf pi) ui resp reportSections s hs
  · intro s hs hsok
    have h := content_mem_expectedDoc env.complete (sysOf pi) ui resp reportSections s hs hsok
    exact ⟨List.mem_cons_of_mem _ h.1, List.mem_cons_of_mem _ h.2⟩

set_option maxRecDepth 20000 in
/-- C1 witness: a collaborator that raises exactly for the
"2. TCM Diagnosis" section and succeeds for all the others satisfies the
hypotheses of `c1_section_failure_is_nonfatal`. -/
theorem c1_witness :
    (∀ q, envC1.clientQuery q 5 = Except.ok (respA q))
    ∧ "2. TCM Diagnosis" ∈ reportSections
    ∧ "1. Patient Overview" ∈ reportSections
    ∧ sectionOk envC1.complete (sysOf pi0) "" respA "2. TCM Diagnosis" = false
    ∧ sectionOk envC1.complete (sysOf pi0) "" respA "1. Patient Overview" = true
    ∧ (∃ doc ev, generate_diagnostic_report envC1 pi0 "" = Except.ok (doc, ev)
      ∧ (∀ s ∈ reportSections, sectionOk envC1.complete (sysOf pi0) "" respA s = false →
          Event.warning (failWarning s) ∈ ev ∧ Block.heading 1 s ∉ doc)
      ∧ (∀ s ∈ reportSections,
          Event.generateCall s (sysOf pi0)
            (partPrompt (respCtx respA "" s) (sectionUserMessage s "")) ∈ ev)
      ∧ (∀ s ∈ reportSections, sectionOk envC1.complete (sysOf pi0) "" respA s = true →
          Block.heading 1 s ∈ doc ∧
            Block.paragraph (okContent envC1.complete (sysOf pi0) "" respA s) ∈ doc)) :=
  ⟨fun _ => rfl, by decide, by decide, by decide, by decide,
   c1_section_failure_is_nonfatal envC1 pi0 "" respA (fun _ => rfl)
     "2. TCM Diagnosis" "1. Patient Overview" (by decide) (by decide) (by decide) (by decide)⟩

/-- C2: over the fixed `report_sections` list, the level-1 headings of the
assembled document are exactly the input section list restricted, in
order, to the sections whose generation succeeded, and the failed
sections are surfaced as warnings (one per failed section, in order),
never silently dropped. -/
theorem c2_output_order_matches_input_order (env : Env) (pi : List (String × String))
    (ui : String) (resp : String → Option (List Passage))
    (hresp : ∀ q, env.clientQuery q 5 = Except.ok (resp q)) :
    ∃ doc ev, generate_diagnostic_report env pi ui = Except.ok (doc, ev)
      ∧ doc.filterMap heading1Name =
          reportSections.filter (sectionOk env.complete (sysOf pi) ui resp)
      ∧ ev.filterMap warningMsg =
          (reportSections.filter
              (fun s => !(sectionOk env.complete (sysOf pi) ui resp s))).map failWarning := by
  refine ⟨_, _, generate_diagnostic_report_eq env pi ui resp hresp, ?_,
    expectedEvents_warnings env.complete (sysOf pi) ui resp reportSections⟩
  rw [List.filterMap_cons]
  exact expectedDoc_headings env.complete (sysOf pi) ui resp reportSections

/-- C2 witness: the C1 scenario environment instantiates
`c2_output_order_matches_input_order`. -/
theorem c2_witness :
    (∀ q, envC1.clientQuery q 5 = Except.ok (respA q))
    ∧ (∃ doc ev, generate_diagnostic_report envC1 pi0 "" = Except.ok (doc, ev)
      ∧ doc.filterMap heading1Name =
          reportSections.filter (sectionOk envC1.complete (sysOf pi0) "" respA)
      ∧ ev.filterMap warningMsg =
          (reportSections.filter
              (fun s => !(sectionOk envC1.complete (sysOf pi0) "" respA s))).map failWarning) :=
  ⟨fun _ => rfl, c2_output_order_matches_input_order envC1 pi0 "" respA (fun _ => rfl)⟩

/-- C7: for every section, the event trace of the run contains the
retrieval of that section strictly before its generation call (`List.Sublist`
preserves order), and the generation prompt interpolates exactly the
retrieved passages joined with newline separators — every passage the
collaborator returned, in its order, with nothing reranked or filtered
out. -/
theorem c7_retrieval_precedes_generation (env : Env) (pi : List (String × String))
    (ui : String) (resp : String → Option (List Passage))
    (hresp : ∀ q, env.clientQuery q 5 = Except.ok (resp q)) :
    ∃ doc ev, generate_diagnostic_report env pi ui = Except.ok (doc, ev)
      ∧ ∀ s ∈ reportSections,
          List.Sublist
            [Event.retrieve (sectionUserMessage s ui),
             Event.generateCall s (sysOf pi)
               (partPrompt
                 (String.intercalate "\n"
                   (((resp (sectionUserMessage s ui)).getD []).map Passage.text))
                 (sectionUserMessage s ui))]
            ev := by
  refine ⟨_, _, generate_diagnostic_report_eq env pi ui resp hresp, ?_⟩
  intro s hs
  exact retrieve_before_generate env.complete (sysOf pi) ui resp reportSections s hs

/-- C7 witness: an always-succeeding environment instantiates
`c7_retrieval_precedes_generation`. -/
theorem c7_witness :
    (∀ q, envAllOk.clientQuery q 5 = Except.ok (respA q))
    ∧ (∃ doc ev, generate_diagnostic_report envAllOk pi0 "" = Except.ok (doc, ev)
      ∧ ∀ s ∈ reportSections,
          List.Sublist
            [Event.retrieve (sectionUserMessage s ""),
             Event.generateCall s (sysOf pi0)
               (partPrompt
                 (String.intercalate "\n"
                   (((respA (sectionUserMessage s "")).getD []).map Passage.text))
                 (sectionUserMessage s ""))]
            ev) :=
  ⟨fun _ => rfl, c7_retrieval_precedes_generation envAllOk pi0 "" respA (fun _ => rfl)⟩

/-- C8: whenever the retrieval collaborator does not raise,
`generate_diagnostic_report` returns normally with a document whose first
block is the title heading `TCM Diagnostic Report for {patient name}` —
for every generation behaviour, including one that fails every section —
so the returned document is non-empty (and, being a `Document` object,
truthy: the `if report:` test in `main` always takes the success branch). -/
theorem c8_title_heading_always_present (env : Env) (pi : List (String × String))
    (ui : String) (resp : String → Option (List Passage))
    (hresp : ∀ q, env.clientQuery q 5 = Except.ok (resp q)) :
    ∃ doc ev, generate_diagnostic_report env pi ui = Except.ok (doc, ev)
      ∧ doc.head? = some (Block.heading 0
          ("TCM Diagnostic Report for " ++ ((pi.lookup "Patient Name").getD "Patient")))
      ∧ doc ≠ [] := by
  refine ⟨_, _, generate_diagnostic_report_eq env pi ui resp hresp, rfl, ?_⟩
  simp

/-- C8 witness: the all-sections-fail environment instantiates
`c8_title_heading_always_present`. -/
theorem c8_witness :
    (∀ q, envTotalFailure.clientQuery q 5 = Except.ok (respEmpty q))
    ∧ (∃ doc ev, generate_diagnostic_report envTotalFailure pi0 "" = Except.ok (doc, ev)
      ∧ doc.head? = some (Block.heading 0
          ("TCM Diagnostic Report for " ++ ((pi0.lookup "Patient Name").getD "Patient")))
      ∧ doc ≠ []) :=
  ⟨fun _ => rfl,
   c8_title_heading_always_present envTotalFailure pi0 "" respEmpty (fun _ => rfl)⟩

/-- C3: the code does not signal a fatal outcome when every section fails.
With a generation collaborator that raises on every call, the `app.py`
pipeline returns a document consisting of the title heading alone — a
truthy value, so the `if report:` test in `main` takes its success branch — and the
`2_Generate_Report.py` variant returns the empty string, which its caller
unconditionally announces as success.  The claim (and the spec) require
an explicit failure signal here instead. -/
theorem c3_total_failure_reported_as_success :
    (generate_diagnostic_report envTotalFailure pi0 "").map Prod.fst =
        Except.ok [Block.heading 0 "TCM Diagnostic Report for Jane Doe"]
    ∧ (Pages.generate_diagnostic_report (fun _ _ => Except.error "rate limited") "" "").1
        = "" := by
  constructor
  · rw [generate_diagnostic_report_eq envTotalFailure pi0 "" respEmpty (fun _ => rfl)]
    rw [expectedDoc_nil_of_all_fail envTotalFailure.complete (sysOf pi0) "" respEmpty
      (fun _ => rfl) reportSections]
    rfl
  · rfl

/-- C5 counterexample: the claim also covers a retrieval collaborator that
*raises*; but `query_weaviate` catches nothing, so the exception
propagates out of `generate_diagnostic_report`, which therefore does not
complete (the run aborts; only the outer handler in `main` would catch it). -/
theorem c5_counterexample_retrieval_raise_propagates :
    generate_diagnostic_report envRaise pi0 "" = Except.error "ConnectionError" := rfl

/-- C5 (amended): when the retrieval collaborator returns a malformed
(unexpected-format) response on every query, `generate_diagnostic_report`
completes without throwing, the generation prompt of every section interpolates
the empty context string, and the malformation is surfaced as an error
message. -/
theorem c5_amended_malformed_response_degrades (env : Env) (pi : List (String × String))
    (ui : String)
    (hmal : ∀ q, env.clientQuery q 5 = Except.ok Option.none) :
    ∃ doc ev, generate_diagnostic_report env pi ui = Except.ok (doc, ev)
      ∧ (∀ s ∈ reportSections,
          Event.generateCall s (sysOf pi) (partPrompt "" (sectionUserMessage s ui)) ∈ ev)
      ∧ Event.formatError ∈ ev := by
  refine ⟨_, _, generate_diagnostic_report_eq env pi ui (fun _ => Option.none) hmal, ?_, ?_⟩
  · intro s hs
    exact generateCall_mem_expectedEvents env.complete (sysOf pi) ui
      (fun _ => Option.none) reportSections s hs
  · exact formatError_mem_expectedEvents env.complete (sysOf pi) ui reportSections (by decide)

/-- C5 witness: an always-malformed retrieval collaborator instantiates
`c5_amended_malformed_response_degrades`. -/
theorem c5_witness :
    (∀ q, envMalformed.clientQuery q 5 = Except.ok Option.none)
    ∧ (∃ doc ev, generate_diagnostic_report envMalformed pi0 "" = Except.ok (doc, ev)
      ∧ (∀ s ∈ reportSections,
          Event.generateCall s (sysOf pi0) (partPrompt "" (sectionUserMessage s "")) ∈ ev)
      ∧ Event.formatError ∈ ev) :=
  ⟨fun _ => rfl, c5_amended_malformed_response_degrades envMalformed pi0 "" (fun _ => rfl)⟩

theorem findIdx?_none_of_all_false {α : Type} (p : α → Bool) :
    ∀ (l : List α) (i : Nat), (∀ x ∈ l, p x = false) → List.findIdx? p l i = Option.none := by
  intro l
  induction l with
  | nil => intro i _; rfl
  | cons a t ih =>
    intro i h
    rw [List.findIdx?_cons, h a (List.mem_cons_self _ _)]
    simpa using ih (i + 1) (fun x hx => h x (List.mem_cons_of_mem _ hx))

theorem findIdx?_append_first_true {α : Type} (p : α → Bool) :
    ∀ (l : List α) (i : Nat) (y : α) (t : List α), (∀ x ∈ l, p x = false) → p y = true →
      List.findIdx? p (l ++ y :: t) i = some (i + l.length) := by
  intro l
  induction l with
  | nil =>
    intro i y t _ hy
    rw [List.nil_append, List.findIdx?_cons, hy]
    simp
  | cons a l2 ih =>
    intro i y t h hy
    rw [List.cons_append, List.findIdx?_cons, h a (List.mem_cons_self _ _)]
    simp only [Bool.false_eq_true, if_false]
    rw [ih (i + 1) y t (fun x hx => h x (List.mem_cons_of_mem _ hx)) hy]
    congr 1
    simp [List.length_cons]
    omega

theorem set_append_singleton {α : Type} (v w : α) :
    ∀ l : List α, (l ++ [v]).set l.length w = l ++ [w] := by
  intro l
  induction l with
  | nil => rfl
  | cons a t ih =>
    show a :: (t ++ [v]).set t.length w = a :: (t ++ [w])
    rw [ih]

theorem getD_append_singleton {α : Type} (v d : α) :
    ∀ l : List α, (l ++ [v]).getD l.length d = v := by
  intro l
  induction l with
  | nil => rfl
  | cons a t ih => exact ih

/-- C6: saving an intake record whose `Patient Name` is absent from the
sheet appends one row, and immediately saving again under the same name
(with different field values of the same schema) finds that row by exact
name match and overwrites it in place: the final sheet is the original
sheet plus exactly one row for that name, holding the values of the
second save. -/
theorem c6_save_twice_one_row (sheet : List (List String)) (n : String)
    (r1 r2 : List (String × String))
    (hlen : r1.length = r2.length)
    (hno : ∀ row ∈ sheet, row.head? ≠ some n) :
    save_or_update_patient (save_or_update_patient sheet (("Patient Name", n) :: r1))
        (("Patient Name", n) :: r2)
      = sheet ++ [n :: r2.map Prod.snd]
    ∧ ((sheet ++ [n :: r2.map Prod.snd]).filter
        (fun row => row.head? == some n)).length = 1
    ∧ (sheet ++ [n :: r2.map Prod.snd]).length = sheet.length + 1 := by
  have hlookup1 : (("Patient Name", n) :: r1).lookup "Patient Name" = some n := by
    simp [List.lookup]
  have hlookup2 : (("Patient Name", n) :: r2).lookup "Patient Name" = some n := by
    simp [List.lookup]
  have hallfalse : ∀ x ∈ sheet.map (fun row => row.take 1),
      (match x with | [] => false | h :: _ => h == n) = false := by
    intro x hx
    rcases List.mem_map.mp hx with ⟨row, hrow, rfl⟩
    cases row with
    | nil => rfl
    | cons h t =>
      show (h == n) = false
      rw [beq_eq_false_iff_ne]
      intro heq
      exact hno _ hrow (by rw [heq]; rfl)
  have h1 : save_or_update_patient sheet (("Patient Name", n) :: r1)
      = sheet ++ [n :: r1.map Prod.snd] := by
    have hfind := findIdx?_none_of_all_false
      (fun name => match name with | [] => false | h :: _ => h == n)
      (sheet.map (fun row => row.take 1)) 0 hallfalse
    simp [save_or_update_patient, hlookup1, hfind]
  have hfind2 : ((sheet ++ [n :: r1.map Prod.snd]).map (fun row => row.take 1)).findIdx?
      (fun name => match name with | [] => false | h :: _ => h == n) 0
      = some sheet.length := by
    rw [List.map_append]
    show List.findIdx? _ (List.map (fun row => row.take 1) sheet ++ [n] :: []) 0 = _
    rw [findIdx?_append_first_true _ _ 0 [n] [] hallfalse (by simp)]
    simp [List.length_map]
  have h2 : save_or_update_patient (sheet ++ [n :: r1.map Prod.snd])
      (("Patient Name", n) :: r2) = sheet ++ [n :: r2.map Prod.snd] := by
    have hold : (sheet ++ [n :: r1.map Prod.snd]).getD sheet.length [] = n :: r1.map Prod.snd :=
      getD_append_singleton _ _ sheet
    have hdrop : (n :: r1.map Prod.snd).drop (n :: r2.map Prod.snd).length = [] := by
      apply List.drop_eq_nil_of_le
      simp [List.length_map, hlen]
    simp only [save_or_update_patient, hlookup2]
    rw [hfind2]
    show (sheet ++ [n :: r1.map Prod.snd]).set sheet.length
        ((n :: r2.map Prod.snd) ++
          ((sheet ++ [n :: r1.map Prod.snd]).getD sheet.length []).drop
            (n :: r2.map Prod.snd).length)
      = sheet ++ [n :: r2.map Prod.snd]
    rw [hold, hdrop, List.append_nil]
    exact set_append_singleton _ _ sheet
  refine ⟨by rw [h1, h2], ?_, by simp⟩
  have hfilter : sheet.filter (fun row => row.head? == some n) = [] := by
    rw [List.filter_eq_nil_iff]
    intro row hrow
    rw [beq_iff_eq]
    exact hno row hrow
  rw [List.filter_append, hfilter]
  simp

/-- C6 witness: saving "Jane Doe" twice onto a sheet that holds only the
header row yields exactly one "Jane Doe" row with the values of the
second save. -/
theorem c6_witness :
    ([("Age", "30")] : List (String × String)).length
        = ([("Age", "31")] : List (String × String)).length
    ∧ (∀ row ∈ sheet0, row.head? ≠ some "Jane Doe")
    ∧ (save_or_update_patient
          (save_or_update_patient sheet0 [("Patient Name", "Jane Doe"), ("Age", "30")])
          [("Patient Name", "Jane Doe"), ("Age", "31")]
        = sheet0 ++ [["Jane Doe", "31"]]
      ∧ ((sheet0 ++ [["Jane Doe", "31"]]).filter
          (fun row => row.head? == some "Jane Doe")).length = 1
      ∧ (sheet0 ++ [["Jane Doe", "31"]]).length = sheet0.length + 1) :=
  ⟨rfl, by decide,
   c6_save_twice_one_row sheet0 "Jane Doe" [("Age", "30")] [("Age", "31")] rfl (by decide)⟩

/-- C9: `search_patient` matches names case-insensitively while
`save_or_update_patient` matches them case-sensitively.  Concretely, with
"Jane Doe" stored, looking up "JANE DOE" returns the stored record, but
saving a record named "JANE DOE" finds no row to update and appends a
duplicate: afterwards the first cells of two rows lowercase to "jane doe". -/
theorem c9_lookup_save_case_mismatch :
    search_patient (fun _ => Option.none) sheet9 "JANE DOE"
        = some [("Patient Name", some "Jane Doe"), ("Age", some "30")]
    ∧ save_or_update_patient sheet9 [("Patient Name", "JANE DOE"), ("Age", "31")]
        = sheet9 ++ [["JANE DOE", "31"]]
    ∧ ((save_or_update_patient sheet9 [("Patient Name", "JANE DOE"), ("Age", "31")]).filter
        (fun row => match row with
          | [] => false
          | h :: _ => pyLower h == "jane doe")).length = 2 := by
  refine ⟨?_, ?_, ?_⟩ <;> decide

end App

namespace PatientInformation

/-- The SECOND (fraction-gated) handler on its own behaves as the claim
describes: it proceeds exactly when `filled_fields / 24` strictly exceeds
one half, rejects a half-complete record with the explicit warning, and
performs no retrieval or generation call (`GateAction` carries none).
This handler is unreachable in the rendered page — see
`c4_ungated_button_bypasses_gate`. -/
theorem gatedClick_iff_fraction :
    (∀ pi, generateReportClick pi = GateAction.proceed ↔ 1 / 2 < calculate_progress pi)
    ∧ (∀ pi, calculate_progress pi = (filled_fields pi : ℚ) / 24)
    ∧ (∀ pi, filled_fields pi = 12 →
        generateReportClick pi = GateAction.rejected gateWarning)
    ∧ (∀ pi, filled_fields pi = 13 → generateReportClick pi = GateAction.proceed) := by
  have hlen : (all_fields.length : ℚ) = 24 := by
    have h24 : all_fields.length = 24 := rfl
    rw [h24]; norm_num
  have hprog : ∀ pi, calculate_progress pi = (filled_fields pi : ℚ) / 24 := by
    intro pi; rw [calculate_progress, hlen]
  refine ⟨?_, hprog, ?_, ?_⟩
  · intro pi
    by_cases h : calculate_progress pi > 1 / 2
    · simp [generateReportClick, h]
    · simp [generateReportClick, h]
  · intro pi h12
    have : calculate_progress pi = 1 / 2 := by rw [hprog, h12]; norm_num
    simp [generateReportClick, this]
  · intro pi h13
    have h : (1 : ℚ) / 2 < calculate_progress pi := by rw [hprog, h13]; norm_num
    unfold generateReportClick
    rw [if_pos h]

/-- Boundary examples for the gated handler: `pi12` (12 of 24 fields
populated, fraction exactly 0.5) is rejected with the explicit message
and `pi13` (13 of 24) is accepted. -/
theorem gatedClick_boundary_example :
    filled_fields pi12 = 12
    ∧ generateReportClick pi12 = GateAction.rejected gateWarning
    ∧ filled_fields pi13 = 13
    ∧ generateReportClick pi13 = GateAction.proceed :=
  ⟨by decide, gatedClick_iff_fraction.2.2.1 pi12 (by decide), by decide,
   gatedClick_iff_fraction.2.2.2 pi13 (by decide)⟩

/-- C4 (code bug): report generation is NOT permitted only when the
completion fraction exceeds 0.5.  The FIRST "Generate Report" handler of
the page (lines 139-145) has no fraction check: it proceeds for any
non-empty record.  `pi12` has exactly half (12 of 24) of the gate fields
populated — the claim requires rejection — yet the first handler
proceeds; only the later fraction-gated handler (lines 148-154, which
the duplicated widget label additionally makes unreachable at render
time) would reject it. -/
theorem c4_ungated_button_bypasses_gate :
    calculate_progress pi12 = 1 / 2
    ∧ first_generate_report_click pi12 = GateAction.proceed
    ∧ generateReportClick pi12 = GateAction.rejected gateWarning := by
  have h12 : filled_fields pi12 = 12 := by decide
  have hlen : (all_fields.length : ℚ) = 24 := by
    have h24 : all_fields.length = 24 := rfl
    rw [h24]; norm_num
  have hp : calculate_progress pi12 = 1 / 2 := by
    rw [calculate_progress, h12, hlen]; norm_num
  exact ⟨hp, rfl, by simp [generateReportClick, hp]⟩

end PatientInformation

namespace Paged

/-- C10: every form section of the paged patient-information page is
unconditionally marked complete during a render, whatever the widget
values; consequently the progress displayed by any render that follows one
full render equals 1.0 — the displayed progress never measures which
fields are populated. -/
theorem c10_progress_full_after_one_render (s : Session) (i j : FormInputs) :
    (sections.all
        (fun sec => ((patient_info_page i s).2).flags (sec ++ "_complete"))) = true
    ∧ (patient_info_page j ((patient_info_page i s).2)).1 = 1 := by
  constructor
  · rfl
  · show displayedProgress ((patient_info_page i s).2) = 1
    have hcount : sections.countP
        (fun sec => ((patient_info_page i s).2).flags (sec ++ "_complete")) = 7 := rfl
    rw [displayedProgress, hcount]
    norm_num [sections]

end Paged
